import Mathlib

set_option maxRecDepth 8000

/-!
Formal model of the real-time core of src/index.tsx of the hupsclick utility
panel: the SOS signal-pattern scheduler (visual and audio channels), the
countdown/stopwatch timer, the alarm matcher, and the capability/permission
state machine of the motion-sensor features. Each definition is a direct
translation of the corresponding TypeScript, with the line numbers given in
the doc comments. JavaScript numbers that only ever hold millisecond counts
or second counts are modelled as Nat; orientation readings are modelled as
Int (their numeric value is irrelevant to the properties proved here, only
presence or absence of a reading matters).
-/

/-! ## The SOS pattern (src/index.tsx lines 168-181) -/

/-- One step of the SOS pattern: the light state during the step and the
step duration in milliseconds. Mirrors the object literals of sosPattern. -/
structure SosStep where
  «on» : Bool
  duration : Nat
  deriving DecidableEq

/-- The built-in SOS pattern, copied literally from lines 168-181:
S (dot 200 / gap 200, dot 200 / gap 200, dot 200 / letter gap 700),
O (dash 600 / gap 200, dash 600 / gap 200, dash 600 / letter gap 700),
S (dot 200 / gap 200, dot 200 / gap 200, dot 200 / word gap 2000). -/
def sosPattern : List SosStep := [
  ⟨true, 200⟩, ⟨false, 200⟩,
  ⟨true, 200⟩, ⟨false, 200⟩,
  ⟨true, 200⟩, ⟨false, 700⟩,
  ⟨true, 600⟩, ⟨false, 200⟩,
  ⟨true, 600⟩, ⟨false, 200⟩,
  ⟨true, 600⟩, ⟨false, 700⟩,
  ⟨true, 200⟩, ⟨false, 200⟩,
  ⟨true, 200⟩, ⟨false, 200⟩,
  ⟨true, 200⟩, ⟨false, 2000⟩]

/-- The list of step durations of a pattern. -/
def stepDurations (p : List SosStep) : List Nat := p.map (fun st => st.duration)

/-- The scheduling offset of step k of the built-in pattern: the sum of the
durations of the steps before it. This is the value cumulativeDelay has when
step k is scheduled in schedulePattern. -/
def sosOffset (k : Nat) : Nat := ((stepDurations sosPattern).take k).sum

/-- The total cycle duration of the built-in pattern. -/
def sosTotal : Nat := (stepDurations sosPattern).sum

/-- Helper for visualPass: walks the pattern carrying cumulativeDelay,
emitting one (offset, light state) event per step and returning the final
cumulativeDelay, exactly as the forEach loop of lines 219-225 does. -/
def visualPassAux : List SosStep → Nat → List (Nat × Bool) × Nat
  | [], acc => ([], acc)
  | st :: rest, acc =>
    let r := visualPassAux rest (acc + st.duration)
    ((acc, st.«on») :: r.1, r.2)

/-- One visual scheduling pass over a pattern (lines 214-227): the list of
(offset, light state) transition events, one per step at the running
cumulativeDelay, together with the final cumulativeDelay at which the
loop-restart timeout is registered. -/
def visualPass (p : List SosStep) : List (Nat × Bool) × Nat := visualPassAux p 0

/-- Helper for audioPass: walks the pattern carrying cumulativeDelay, emitting
one (offset, tone duration) event per step whose light state is on, exactly as
the forEach loop of lines 265-273 does. -/
def audioPassAux : List SosStep → Nat → List (Nat × Nat) × Nat
  | [], acc => ([], acc)
  | st :: rest, acc =>
    let r := audioPassAux rest (acc + st.duration)
    (if st.«on» then (acc, st.duration) :: r.1 else r.1, r.2)

/-- One audio scheduling pass over a pattern (lines 260-275): the list of
(offset, tone duration) events, one per on step, together with the final
cumulativeDelay at which the loop-restart timeout is registered. -/
def audioPass (p : List SosStep) : List (Nat × Nat) × Nat := audioPassAux p 0

/-! ## Timeout bookkeeping shared by the two SOS channels -/

/-- A registered timeout: its setTimeout id, its absolute fire time, and the
callback it will run, abstracted as an action of type α. -/
structure Timeout (α : Type) where
  id : Nat
  fireAt : Nat
  act : α
  deriving DecidableEq

/-- The timeout state of one SOS channel: the current wall-clock time, a
counter supplying fresh setTimeout ids, the registered timeouts that have
neither fired nor been cleared, and the id array currently held in the ref
(sosTimeoutRef resp. sosAudioTimeoutRef). -/
structure Chan (α : Type) where
  now : Nat
  nextId : Nat
  pending : List (Timeout α)
  ref : List Nat
  deriving DecidableEq

/-- clearVisualSosTimeouts / clearAudioSosTimeouts (lines 183-191): call
clearTimeout on every id held in the ref and empty the ref. Clearing removes
the timeouts with those ids from the pending set; clearTimeout on an id that
already fired is a no-op, which the filter reproduces because fired timeouts
are no longer in pending. -/
def chanClear {α : Type} (s : Chan α) : Chan α :=
  { s with pending := s.pending.filter (fun t => decide (t.id ∉ s.ref)), ref := [] }

/-- Register one timeout per (offset, action) event, with consecutive fresh
ids starting at base, each firing at now + offset. This mirrors the push
calls inside the forEach loop of schedulePattern. -/
def mkTimeouts {α : Type} (base now : Nat) : List (Nat × α) → List (Timeout α)
  | [] => []
  | (off, a) :: rest => ⟨base, now + off, a⟩ :: mkTimeouts (base + 1) now rest

/-- schedulePattern for one channel (lines 214-229 resp. 260-277): first
clear the timeouts of the previous run, then register one timeout per event
plus the loop-restart timeout at the total offset, and store exactly the new
ids in the ref. The registration block is synchronous, so it is one atomic
step of the model. -/
def chanRegister {α : Type} (evs : List (Nat × α)) (loopOff : Nat) (loopAct : α)
    (s : Chan α) : Chan α :=
  let s1 := chanClear s
  let newTs := mkTimeouts s1.nextId s1.now evs ++
    [⟨s1.nextId + evs.length, s1.now + loopOff, loopAct⟩]
  { now := s1.now
    nextId := s1.nextId + evs.length + 1
    pending := s1.pending ++ newTs
    ref := newTs.map (fun t => t.id) }

/-- The bookkeeping invariant of a channel: every pending timeout has its id
in the ref (so clearing the ref cancels everything outstanding), and all ids
in pending and in the ref are below the fresh-id counter. -/
def ChanInv {α : Type} (s : Chan α) : Prop :=
  (∀ t ∈ s.pending, t.id ∈ s.ref) ∧
  (∀ t ∈ s.pending, t.id < s.nextId) ∧
  (∀ i ∈ s.ref, i < s.nextId)

/-! ## The visual SOS channel (lines 205-235) -/

/-- The callback of a visual timeout: either setIsSosLightVisible(b) for one
pattern step, or the loop restart that re-invokes schedulePattern. -/
inductive VAction where
  | setLight (b : Bool)
  | loopRestart
  deriving DecidableEq

/-- State of the visual SOS subsystem: the channel bookkeeping plus the
isSosLightVisible flag. -/
structure VState where
  chan : Chan VAction
  light : Bool
  deriving DecidableEq

/-- Initial visual state: no timeouts, empty ref, light visible (the
useState default of isSosLightVisible is true, line 62). -/
def vInit : VState := ⟨⟨0, 0, [], []⟩, true⟩

/-- The (offset, callback) events registered by one visual scheduling pass:
one setIsSosLightVisible callback per step (line 221). -/
def visualEvents (p : List SosStep) : List (Nat × VAction) :=
  (visualPass p).1.map (fun q => (q.1, VAction.setLight q.2))

/-- The visual schedulePattern (lines 214-230), run when the effect starts a
run and again by every loop-restart callback. -/
def vRegister (s : VState) : VState :=
  { s with chan := (chanRegister (visualEvents sosPattern) (visualPass sosPattern).2 VAction.loopRestart s.chan) }

/-- Fire one pending visual timeout: it leaves the pending set, time advances
to its deadline, and its callback runs: a transition callback writes the
light flag, the loop-restart callback re-invokes schedulePattern. -/
def vFire (s : VState) (t : Timeout VAction) : VState :=
  let c1 : Chan VAction := { s.chan with pending := s.chan.pending.erase t, now := t.fireAt }
  let s1 : VState := { s with chan := c1 }
  match t.act with
  | VAction.setLight b => { s1 with light := b }
  | VAction.loopRestart => vRegister s1

/-- Cancel of the visual channel (effect branch for isSosActive = false,
lines 206-209, and the effect cleanup): clearVisualSosTimeouts, then
setIsSosLightVisible(true). -/
def vCancel (s : VState) : VState :=
  { s with chan := chanClear s.chan, light := true }

/-- The reachable states of the visual subsystem: from the initial state,
a run can be started (or restarted), any pending timeout can fire, and the
channel can be canceled, in any order. -/
inductive VReach : VState → Prop where
  | init : VReach vInit
  | start {s : VState} : VReach s → VReach (vRegister s)
  | fire {s : VState} {t : Timeout VAction} : VReach s → t ∈ s.chan.pending →
      VReach (vFire s t)
  | cancel {s : VState} : VReach s → VReach (vCancel s)

/-! ## The audio SOS channel (lines 238-283) -/

/-- The callback of an audio timeout: either playTone(duration) for one on
step, or the loop restart. -/
inductive AAction where
  | toneStart (durationMs : Nat)
  | loopRestart
  deriving DecidableEq

/-- A tone started by playTone (lines 246-256): a sine oscillator at a fixed
660 Hz started at startAt and stopped by the oscillator itself at
startAt + durationMs. Nothing in the source ever cancels a started tone. -/
structure Tone where
  freq : Nat
  startAt : Nat
  durationMs : Nat
  deriving DecidableEq

/-- State of the audio SOS subsystem: the channel bookkeeping plus the log of
every tone started so far (a tone, once started, runs to its own deadline;
the log is never shrunk because no operation stops a started tone). -/
structure AState where
  chan : Chan AAction
  tones : List Tone
  deriving DecidableEq

/-- Initial audio state. -/
def aInit : AState := ⟨⟨0, 0, [], []⟩, []⟩

/-- The (offset, callback) events registered by one audio scheduling pass:
a toneStart with the step duration, only for on steps (line 266). -/
def audioEvents (p : List SosStep) : List (Nat × AAction) :=
  (audioPass p).1.map (fun q => (q.1, AAction.toneStart q.2))

/-- The audio schedulePattern (lines 260-278). -/
def aRegister (s : AState) : AState :=
  { s with chan := (chanRegister (audioEvents sosPattern) (audioPass sosPattern).2 AAction.loopRestart s.chan) }

/-- playTone (lines 246-256): starts an independent oscillator at 660 Hz
whose stop time is set immediately from the requested duration. -/
def playTone (d : Nat) (s : AState) : AState :=
  { s with tones := s.tones ++ [⟨660, s.chan.now, d⟩] }

/-- Fire one pending audio timeout: a toneStart callback calls playTone, the
loop-restart callback re-invokes schedulePattern. -/
def aFire (s : AState) (t : Timeout AAction) : AState :=
  let c1 : Chan AAction := { s.chan with pending := s.chan.pending.erase t, now := t.fireAt }
  let s1 : AState := { s with chan := c1 }
  match t.act with
  | AAction.toneStart d => playTone d s1
  | AAction.loopRestart => aRegister s1

/-- Cancel of the audio channel (effect branch for isAudioSosActive = false,
lines 239-242, and the effect cleanup): clearAudioSosTimeouts only — started
tones are not touched. -/
def aCancel (s : AState) : AState := { s with chan := chanClear s.chan }

/-- The reachable states of the audio subsystem. -/
inductive AReach : AState → Prop where
  | init : AReach aInit
  | start {s : AState} : AReach s → AReach (aRegister s)
  | fire {s : AState} {t : Timeout AAction} : AReach s → t ∈ s.chan.pending →
      AReach (aFire s t)
  | cancel {s : AState} : AReach s → AReach (aCancel s)

/-- The durations of the on steps of the built-in pattern. -/
def onDurations : List Nat :=
  (sosPattern.filter (fun st => st.«on»)).map (fun st => st.duration)

/-- The audio invariant: the channel bookkeeping invariant, every pending
toneStart carries the duration of some on step, and every started tone is at
660 Hz with the duration of some on step. -/
def AInv (s : AState) : Prop :=
  ChanInv s.chan ∧
  (∀ t ∈ s.chan.pending, ∀ d, t.act = AAction.toneStart d → d ∈ onDurations) ∧
  (∀ tn ∈ s.tones, tn.freq = 660 ∧ tn.durationMs ∈ onDurations)

/-! ## The countdown/stopwatch timer (lines 49-52, 144-165, 521-541) -/

inductive TimerMode where
  | stopwatch
  | countdown
  deriving DecidableEq

/-- The timer state: timerMode, timerSeconds, isTimerActive, timerFinished. -/
structure TimerState where
  mode : TimerMode
  seconds : Nat
  active : Bool
  finished : Bool
  deriving DecidableEq

/-- The synchronous branch of the timer useEffect (lines 148-156): whenever
the state changes while active in countdown mode with zero seconds left, the
effect immediately sets isTimerActive false and timerFinished true instead of
arming an interval. -/
def timerEffectCheck (s : TimerState) : TimerState :=
  if s.active ∧ s.mode = TimerMode.countdown ∧ s.seconds = 0
  then { s with active := false, finished := true } else s

/-- One firing of the 1000 ms interval armed by the timer useEffect: while
active, countdown decrements (the interval only exists when seconds > 0),
stopwatch increments; the effect then re-runs and may apply the synchronous
finished transition. When not active no interval is armed. -/
def timerTick (s : TimerState) : TimerState :=
  if s.active then
    match s.mode with
    | TimerMode.countdown =>
      if s.seconds > 0 then timerEffectCheck { s with seconds := s.seconds - 1 } else s
    | TimerMode.stopwatch => timerEffectCheck { s with seconds := s.seconds + 1 }
  else s

/-- handleSetPreset (lines 536-541): countdown mode, minutes * 60 seconds,
active, not finished, after which the effect runs. -/
def handleSetPreset (minutes : Nat) : TimerState :=
  timerEffectCheck
    { mode := TimerMode.countdown, seconds := minutes * 60, active := true, finished := false }

/-- handleReset (lines 529-534). -/
def handleReset (_ : TimerState) : TimerState :=
  { mode := TimerMode.stopwatch, seconds := 0, active := false, finished := false }

/-- The timer branch of handleBackClick (lines 415-418): only isTimerActive
and timerFinished are written; timerSeconds and timerMode are untouched. -/
def handleBackTimer (s : TimerState) : TimerState :=
  { s with active := false, finished := false }

/-! ## The alarm (lines 54-56, 98-116, 553-568, 412-445) -/

/-- A wall-clock tick as read by the clock interval. -/
structure ClockTime where
  hour : Nat
  minute : Nat
  second : Nat
  deriving DecidableEq

/-- The alarm state: alarmTime (the parsed HH:MM, none when cleared) and
isAlarmRinging. -/
structure AlarmState where
  alarmTime : Option (Nat × Nat)
  ringing : Bool
  deriving DecidableEq

/-- The operations that touch the alarm state in the source:
the 1000 ms clock interval tick (lines 99-113), handleSetAlarm with a valid
input (lines 553-559, the HH:MM parse is done by the caller per the spec),
handleClearAlarm (lines 561-564), handleStopRinging (lines 566-568), and the
alarm branch of handleBackClick (lines 419-421). -/
inductive AlarmOp where
  | tick (now : ClockTime)
  | setAlarm (h m : Nat)
  | clearAlarm
  | stopRinging
  | backFromAlarm
  deriving DecidableEq

/-- The effect of each operation on the alarm state, translated line by
line: the tick sets ringing only when an alarm is set, not already ringing,
and the tick matches (hour, minute, second = 0); setAlarm replaces the config
and writes ringing false; clear removes the config and writes ringing false;
stop writes ringing false; the back exit writes ringing false only when
ringing. -/
def alarmStep (s : AlarmState) (op : AlarmOp) : AlarmState :=
  match op with
  | AlarmOp.tick now =>
    match s.alarmTime with
    | some (h, m) =>
      if s.ringing = false ∧ now.hour = h ∧ now.minute = m ∧ now.second = 0
      then { s with ringing := true } else s
    | none => s
  | AlarmOp.setAlarm h m => { alarmTime := some (h, m), ringing := false }
  | AlarmOp.clearAlarm => { alarmTime := none, ringing := false }
  | AlarmOp.stopRinging => { s with ringing := false }
  | AlarmOp.backFromAlarm => if s.ringing then { s with ringing := false } else s

/-! ## The sensor capability/permission machine (lines 77-80, 286-345,
412-445, 641-657) -/

/-- sensorSupportState (line 79). -/
inductive Support where
  | checking
  | supported
  | unsupported
  deriving DecidableEq

/-- permissionState (line 78). -/
inductive Permission where
  | unknown
  | prompt
  | granted
  | denied
  deriving DecidableEq

/-- A raw deviceorientation event: each field may be absent (null). -/
structure RawEvent where
  alpha : Option Int
  beta : Option Int
  gamma : Option Int
  deriving DecidableEq

/-- The sensor subsystem state: whether a sensor-consuming hologram is
active, the two state-machine variables, how many one-shot detection
listeners are currently registered on the window, whether handleOrientation
is registered, whether the 1000 ms detection timer is pending, the published
orientation sample, and the platform flag telling whether
DeviceMotionEvent.requestPermission exists. -/
structure SensorSys where
  active : Bool
  support : Support
  permission : Permission
  detectListeners : Nat
  orientListener : Bool
  timerPending : Bool
  orientation : Int × Int × Int
  requiresPermission : Bool
  deriving DecidableEq

/-- Initial state (lines 77-80): support checking, permission unknown,
nothing registered. -/
def sensorInit (req : Bool) : SensorSys :=
  { active := false, support := Support.checking, permission := Permission.unknown,
    detectListeners := 0, orientListener := false, timerPending := false,
    orientation := (0, 0, 0), requiresPermission := req }

/-- The effect cleanup (lines 337-344): it removes the handleOrientation
listener and clears the pending detection timer. Note that it does NOT
remove the one-shot detection listener registered at line 312; that listener
is only removed by its own callback (line 309) or by the timeout callback
(line 316). -/
def sensorCleanup (s : SensorSys) : SensorSys :=
  { s with orientListener := false, timerPending := false }

/-- Step 1 of the effect body (lines 297-318): while support is checking,
register the one-shot detection listener and arm the 1000 ms timer. -/
def sensorCheckArm (s : SensorSys) : SensorSys :=
  if s.support = Support.checking
  then { s with detectListeners := s.detectListeners + 1, timerPending := true }
  else s

/-- Step 2 of the effect body (lines 321-334): once supported, either hook
the data listener when permission is granted, advance unknown to prompt when
the platform requires an explicit grant, or grant directly and hook the data
listener when it does not. -/
def sensorSupportedBranch (s : SensorSys) : SensorSys :=
  if s.support = Support.supported then
    if s.requiresPermission then
      if s.permission = Permission.granted then { s with orientListener := true }
      else if s.permission = Permission.unknown then { s with permission := Permission.prompt }
      else s
    else { s with permission := Permission.granted, orientListener := true }
  else s

/-- The sensor useEffect body (lines 286-335): both steps run only while a
sensor-consuming hologram is active. -/
def sensorEffect (s : SensorSys) : SensorSys :=
  if s.active then sensorSupportedBranch (sensorCheckArm s) else s

/-- The dependency array of the sensor useEffect (line 345):
activeHologram, sensorSupportState, permissionState. -/
def sensorDeps (s : SensorSys) : Bool × Support × Permission :=
  (s.active, s.support, s.permission)

/-- The React commit loop: as long as the dependencies differ from those the
last effect run observed, run the cleanup of the previous effect and then the
effect; the effect itself may change a dependency, re-triggering the loop.
The dependency chain has length at most 2 (support change, then at most one
permission change), so fuel 5 always reaches the fixed point. -/
def reactAux : Nat → Bool × Support × Permission → SensorSys → SensorSys
  | 0, _, s => s
  | Nat.succ n, last, s =>
    if sensorDeps s = last then s
    else reactAux n (sensorDeps s) (sensorEffect (sensorCleanup s))

/-- Commit a raw state mutation: prev is the state the last effect run
observed, s the mutated state. -/
def sensorCommit (prev s : SensorSys) : SensorSys := reactAux 5 (sensorDeps prev) s

/-- handleHologramSelect for spirit-level or compass: the hologram becomes
active and the effect machinery runs. -/
def enterFeature (s : SensorSys) : SensorSys :=
  sensorCommit s { s with active := true }

/-- The sensor branch of handleBackClick (lines 429-433) plus leaving the
hologram: permission reset to unknown, support reset to checking, the
hologram deactivated, then the effect machinery runs (which performs the
cleanup of lines 337-344). -/
def exitFeature (s : SensorSys) : SensorSys :=
  sensorCommit s
    { s with active := false, support := Support.checking, permission := Permission.unknown }

/-- Dispatch of a deviceorientation event to a registered one-shot detection
listener (lines 298-311): it clears the detection timer, sets support to
supported exactly when any of beta, gamma, alpha is non-null, and removes
itself. When no detection listener is registered the event has no effect on
detection. -/
def detectEvent (e : RawEvent) (s : SensorSys) : SensorSys :=
  if s.detectListeners = 0 then s
  else
    sensorCommit s
      { s with timerPending := false,
               support := (if e.beta ≠ none ∨ e.gamma ≠ none ∨ e.alpha ≠ none
                 then Support.supported else Support.unsupported),
               detectListeners := s.detectListeners - 1 }

/-- The 1000 ms detection timeout firing (lines 314-317): support becomes
unsupported and the one-shot listener is removed. -/
def timerFire (s : SensorSys) : SensorSys :=
  if s.timerPending then
    sensorCommit s
      { s with timerPending := false, support := Support.unsupported,
               detectListeners := s.detectListeners - 1 }
  else s

/-- Dispatch of a deviceorientation event to handleOrientation
(lines 287-293): each missing field defaults to 0. -/
def orientEvent (e : RawEvent) (s : SensorSys) : SensorSys :=
  if s.orientListener then
    sensorCommit s
      { s with orientation := (e.alpha.getD 0, e.beta.getD 0, e.gamma.getD 0) }
  else s

/-- handlePermissionRequest resolving (lines 641-657): granted or denied. -/
def permResult (granted : Bool) (s : SensorSys) : SensorSys :=
  sensorCommit s
    { s with permission := if granted then Permission.granted else Permission.denied }

/-- The asynchronous inputs that can occur during one activation of a
sensor-consuming feature (everything except entering or leaving it). -/
inductive ActOp where
  | detect (e : RawEvent)
  | timeout
  | perm (granted : Bool)
  | orient (e : RawEvent)

/-- One activation step. -/
def actStep (s : SensorSys) (op : ActOp) : SensorSys :=
  match op with
  | ActOp.detect e => detectEvent e s
  | ActOp.timeout => timerFire s
  | ActOp.perm g => permResult g s
  | ActOp.orient e => orientEvent e s

/-- The configuration after detection has definitively failed inside an
activation: active, unsupported, no detection listener, no pending timer. -/
def SensorLocked (s : SensorSys) : Prop :=
  s.active = true ∧ s.support = Support.unsupported ∧
  s.detectListeners = 0 ∧ s.timerPending = false

/-! ## Channel bookkeeping lemmas -/

theorem chanClear_pending_nil {α : Type} (s : Chan α)
    (h : ∀ t ∈ s.pending, t.id ∈ s.ref) : (chanClear s).pending = [] := by
  unfold chanClear
  simp only [List.filter_eq_nil_iff, decide_eq_true_eq]
  intro t ht h2
  exact h2 (h t ht)

theorem chanRegister_now {α : Type} (evs : List (Nat × α)) (loopOff : Nat)
    (loopAct : α) (s : Chan α) :
    (chanRegister evs loopOff loopAct s).now = s.now := rfl

theorem chanRegister_nextId {α : Type} (evs : List (Nat × α)) (loopOff : Nat)
    (loopAct : α) (s : Chan α) :
    (chanRegister evs loopOff loopAct s).nextId = s.nextId + evs.length + 1 := rfl

theorem chanRegister_pending_eq {α : Type} (evs : List (Nat × α)) (loopOff : Nat)
    (loopAct : α) (s : Chan α) :
    (chanRegister evs loopOff loopAct s).pending =
      (chanClear s).pending ++ (mkTimeouts s.nextId s.now evs ++
        [⟨s.nextId + evs.length, s.now + loopOff, loopAct⟩]) := rfl

theorem chanRegister_ref_eq {α : Type} (evs : List (Nat × α)) (loopOff : Nat)
    (loopAct : α) (s : Chan α) :
    (chanRegister evs loopOff loopAct s).ref =
      (mkTimeouts s.nextId s.now evs ++
        [(⟨s.nextId + evs.length, s.now + loopOff, loopAct⟩ : Timeout α)]).map
        (fun t => t.id) := rfl

theorem mem_mkTimeouts {α : Type} {t : Timeout α} :
    ∀ (evs : List (Nat × α)) (base now : Nat), t ∈ mkTimeouts base now evs →
      (base ≤ t.id ∧ t.id < base + evs.length) ∧
      ∃ p ∈ evs, t.act = p.2 ∧ t.fireAt = now + p.1 := by
  intro evs
  induction evs with
  | nil => intro base now h; simp [mkTimeouts] at h
  | cons q rest ih =>
    intro base now h
    obtain ⟨off, a⟩ := q
    have hl : ((off, a) :: rest).length = rest.length + 1 := rfl
    simp only [mkTimeouts, List.mem_cons] at h
    rcases h with h | h
    · subst h
      refine ⟨⟨Nat.le_refl _, ?_⟩, ⟨(off, a), List.mem_cons_self _ _, rfl, rfl⟩⟩
      show base < base + ((off, a) :: rest).length
      rw [hl]
      omega
    · obtain ⟨⟨h1, h2⟩, p, hp, h3⟩ := ih (base + 1) now h
      exact ⟨⟨by omega, by rw [hl]; omega⟩, p, List.mem_cons_of_mem _ hp, h3⟩

theorem chanRegister_pending {α : Type} (evs : List (Nat × α)) (loopOff : Nat)
    (loopAct : α) (s : Chan α) (h : ∀ t ∈ s.pending, t.id ∈ s.ref) :
    (chanRegister evs loopOff loopAct s).pending =
      mkTimeouts s.nextId s.now evs ++ [⟨s.nextId + evs.length, s.now + loopOff, loopAct⟩] := by
  rw [chanRegister_pending_eq, chanClear_pending_nil s h, List.nil_append]

theorem chanRegister_mem {α : Type} {t : Timeout α} (evs : List (Nat × α))
    (loopOff : Nat) (loopAct : α) (s : Chan α) (h : ChanInv s)
    (ht : t ∈ (chanRegister evs loopOff loopAct s).pending) :
    t.id ∈ (chanRegister evs loopOff loopAct s).ref ∧
    s.nextId ≤ t.id ∧ t.id < (chanRegister evs loopOff loopAct s).nextId ∧
    (t.act = loopAct ∨ ∃ p ∈ evs, t.act = p.2) := by
  have hp := ht
  rw [chanRegister_pending evs loopOff loopAct s h.1] at hp
  have hb : s.nextId ≤ t.id ∧ t.id < s.nextId + evs.length + 1 ∧
      (t.act = loopAct ∨ ∃ p ∈ evs, t.act = p.2) := by
    rcases List.mem_append.1 hp with h1 | h1
    · obtain ⟨⟨hb1, hb2⟩, p, hpp, hact, _⟩ := mem_mkTimeouts evs s.nextId s.now h1
      exact ⟨hb1, by omega, Or.inr ⟨p, hpp, hact⟩⟩
    · rw [List.mem_singleton] at h1
      subst h1
      exact ⟨Nat.le_add_right _ _, Nat.lt_succ_self _, Or.inl rfl⟩
  refine ⟨?_, hb.1, ?_, hb.2.2⟩
  · rw [chanRegister_ref_eq]
    exact List.mem_map.2 ⟨t, hp, rfl⟩
  · rw [chanRegister_nextId]
    exact hb.2.1

theorem chanRegister_inv {α : Type} (evs : List (Nat × α)) (loopOff : Nat)
    (loopAct : α) (s : Chan α) (h : ChanInv s) :
    ChanInv (chanRegister evs loopOff loopAct s) := by
  refine ⟨fun t ht => (chanRegister_mem evs loopOff loopAct s h ht).1,
    fun t ht => (chanRegister_mem evs loopOff loopAct s h ht).2.2.1, ?_⟩
  intro i hi
  rw [chanRegister_ref_eq] at hi
  obtain ⟨t, ht, hti⟩ := List.mem_map.1 hi
  rw [← hti]
  rw [← chanRegister_pending evs loopOff loopAct s h.1] at ht
  exact (chanRegister_mem evs loopOff loopAct s h ht).2.2.1

theorem chanErase_inv {α : Type} [DecidableEq α] (s : Chan α) (t : Timeout α) (n : Nat)
    (h : ChanInv s) : ChanInv { s with pending := s.pending.erase t, now := n } := by
  obtain ⟨h1, h2, h3⟩ := h
  exact ⟨fun u hu => h1 u (List.mem_of_mem_erase hu),
    fun u hu => h2 u (List.mem_of_mem_erase hu), h3⟩

theorem chanClear_inv {α : Type} (s : Chan α) (h : ChanInv s) :
    ChanInv (chanClear s) := by
  have hnil := chanClear_pending_nil s h.1
  refine ⟨?_, ?_, ?_⟩
  · rw [hnil]; intro t ht; cases ht
  · rw [hnil]; intro t ht; cases ht
  · intro i hi
    cases hi

/-! ## Visual channel invariants -/

theorem vRegister_chan (s : VState) :
    (vRegister s).chan = chanRegister (visualEvents sosPattern) (visualPass sosPattern).2
      VAction.loopRestart s.chan := rfl

theorem vReach_chanInv {s : VState} (h : VReach s) : ChanInv s.chan := by
  induction h with
  | init =>
    refine ⟨?_, ?_, ?_⟩ <;> intro x hx <;> exact absurd hx (List.not_mem_nil x)
  | start _ ih =>
    rw [vRegister_chan]
    exact chanRegister_inv _ _ _ _ ih
  | @fire s t _ _ ih =>
    obtain ⟨tid, tf, tact⟩ := t
    cases tact with
    | setLight b =>
      simp only [vFire]
      exact chanErase_inv _ _ _ ih
    | loopRestart =>
      simp only [vFire]
      rw [vRegister_chan]
      exact chanRegister_inv _ _ _ _ (chanErase_inv _ _ _ ih)
  | cancel _ ih => exact chanClear_inv _ ih

/-! ## Audio channel invariants -/

theorem aRegister_chan (s : AState) :
    (aRegister s).chan = chanRegister (audioEvents sosPattern) (audioPass sosPattern).2
      AAction.loopRestart s.chan := rfl

theorem audioEvents_dur :
    ∀ p ∈ audioEvents sosPattern,
      p.2 = AAction.toneStart 200 ∨ p.2 = AAction.toneStart 600 := by decide

theorem aRegister_acts (s : AState) (h : ChanInv s.chan) :
    ∀ t ∈ (aRegister s).chan.pending, ∀ d, t.act = AAction.toneStart d →
      d ∈ onDurations := by
  intro t ht d hd
  rw [aRegister_chan] at ht
  have m := chanRegister_mem _ _ _ _ h ht
  rcases m.2.2.2 with h1 | ⟨p, hp, h2⟩
  · rw [hd] at h1; cases h1
  · rw [hd] at h2
    rcases audioEvents_dur p hp with h3 | h3
    · rw [h3] at h2
      have h4 : d = 200 := AAction.toneStart.inj h2
      subst h4
      decide
    · rw [h3] at h2
      have h4 : d = 600 := AAction.toneStart.inj h2
      subst h4
      decide

theorem aReach_inv {s : AState} (h : AReach s) : AInv s := by
  induction h with
  | init =>
    refine ⟨⟨?_, ?_, ?_⟩, ?_, ?_⟩ <;> intro x hx <;> exact absurd hx (List.not_mem_nil x)
  | start _ ih =>
    refine ⟨?_, aRegister_acts _ ih.1, ih.2.2⟩
    rw [aRegister_chan]
    exact chanRegister_inv _ _ _ _ ih.1
  | @fire s t _ hmem ih =>
    obtain ⟨hc, hacts, htones⟩ := ih
    obtain ⟨tid, tf, tact⟩ := t
    cases tact with
    | toneStart d =>
      simp only [aFire, playTone]
      refine ⟨chanErase_inv _ _ _ hc, ?_, ?_⟩
      · intro u hu e he
        exact hacts u (List.mem_of_mem_erase hu) e he
      · intro tn htn
        rcases List.mem_append.1 htn with h1 | h1
        · exact htones tn h1
        · rw [List.mem_singleton] at h1
          subst h1
          exact ⟨rfl, hacts _ hmem d rfl⟩
    | loopRestart =>
      simp only [aFire]
      have hc2 := chanErase_inv s.chan ⟨tid, tf, AAction.loopRestart⟩ tf hc
      refine ⟨?_, ?_, htones⟩
      · rw [aRegister_chan]
        exact chanRegister_inv _ _ _ _ hc2
      · exact aRegister_acts _ hc2
  | cancel _ ih =>
    refine ⟨chanClear_inv _ ih.1, ?_, ih.2.2⟩
    intro t ht
    exact ih.2.1 t (List.mem_filter.1 ht).1

/-! ## Sensor machine preservation lemmas -/

theorem sensorCleanup_support (s : SensorSys) : (sensorCleanup s).support = s.support := rfl

theorem sensorCleanup_active (s : SensorSys) : (sensorCleanup s).active = s.active := rfl

theorem sensorCleanup_perm (s : SensorSys) :
    (sensorCleanup s).permission = s.permission := rfl

theorem sensorCleanup_dl (s : SensorSys) :
    (sensorCleanup s).detectListeners = s.detectListeners := rfl

theorem sensorCleanup_timer (s : SensorSys) : (sensorCleanup s).timerPending = false := rfl

theorem sensorCheckArm_support (s : SensorSys) :
    (sensorCheckArm s).support = s.support := by
  unfold sensorCheckArm; split <;> rfl

theorem sensorCheckArm_active (s : SensorSys) :
    (sensorCheckArm s).active = s.active := by
  unfold sensorCheckArm; split <;> rfl

theorem sensorCheckArm_perm (s : SensorSys) :
    (sensorCheckArm s).permission = s.permission := by
  unfold sensorCheckArm; split <;> rfl

theorem sensorCheckArm_of_ne (s : SensorSys) (h : s.support ≠ Support.checking) :
    sensorCheckArm s = s := by
  unfold sensorCheckArm
  exact if_neg h

theorem sensorSupportedBranch_support (s : SensorSys) :
    (sensorSupportedBranch s).support = s.support := by
  unfold sensorSupportedBranch
  split
  · split
    · split
      · rfl
      · split <;> rfl
    · rfl
  · rfl

theorem sensorSupportedBranch_active (s : SensorSys) :
    (sensorSupportedBranch s).active = s.active := by
  unfold sensorSupportedBranch
  split
  · split
    · split
      · rfl
      · split <;> rfl
    · rfl
  · rfl

theorem sensorSupportedBranch_dl (s : SensorSys) :
    (sensorSupportedBranch s).detectListeners = s.detectListeners := by
  unfold sensorSupportedBranch
  split
  · split
    · split
      · rfl
      · split <;> rfl
    · rfl
  · rfl

theorem sensorSupportedBranch_timer (s : SensorSys) :
    (sensorSupportedBranch s).timerPending = s.timerPending := by
  unfold sensorSupportedBranch
  split
  · split
    · split
      · rfl
      · split <;> rfl
    · rfl
  · rfl

theorem sensorSupportedBranch_of_ne (s : SensorSys) (h : s.support ≠ Support.supported) :
    sensorSupportedBranch s = s := by
  unfold sensorSupportedBranch
  exact if_neg h

theorem sensorEffect_support (s : SensorSys) : (sensorEffect s).support = s.support := by
  unfold sensorEffect
  split
  · rw [sensorSupportedBranch_support, sensorCheckArm_support]
  · rfl

theorem sensorEffect_active (s : SensorSys) : (sensorEffect s).active = s.active := by
  unfold sensorEffect
  split
  · rw [sensorSupportedBranch_active, sensorCheckArm_active]
  · rfl

theorem sensorEffect_dl (s : SensorSys) (h : s.support ≠ Support.checking) :
    (sensorEffect s).detectListeners = s.detectListeners := by
  unfold sensorEffect
  split
  · rw [sensorSupportedBranch_dl, sensorCheckArm_of_ne s h]
  · rfl

theorem sensorEffect_timer (s : SensorSys) (h : s.support ≠ Support.checking) :
    (sensorEffect s).timerPending = s.timerPending := by
  unfold sensorEffect
  split
  · rw [sensorSupportedBranch_timer, sensorCheckArm_of_ne s h]
  · rfl

theorem sensorEffect_perm (s : SensorSys) (h : s.support ≠ Support.supported) :
    (sensorEffect s).permission = s.permission := by
  unfold sensorEffect
  split
  · rw [sensorSupportedBranch_of_ne _ ?_, sensorCheckArm_perm]
    rw [sensorCheckArm_support]
    exact h
  · rfl

theorem reactAux_support (n : Nat) (last : Bool × Support × Permission) (s : SensorSys) :
    (reactAux n last s).support = s.support := by
  induction n generalizing last s with
  | zero => rfl
  | succ n ih =>
    unfold reactAux
    split
    · rfl
    · rw [ih, sensorEffect_support, sensorCleanup_support]

theorem reactAux_active (n : Nat) (last : Bool × Support × Permission) (s : SensorSys) :
    (reactAux n last s).active = s.active := by
  induction n generalizing last s with
  | zero => rfl
  | succ n ih =>
    unfold reactAux
    split
    · rfl
    · rw [ih, sensorEffect_active, sensorCleanup_active]

theorem reactAux_dl (n : Nat) (last : Bool × Support × Permission) (s : SensorSys)
    (h : s.support ≠ Support.checking) :
    (reactAux n last s).detectListeners = s.detectListeners := by
  induction n generalizing last s with
  | zero => rfl
  | succ n ih =>
    unfold reactAux
    split
    · rfl
    · have hs : (sensorEffect (sensorCleanup s)).support = s.support := by
        rw [sensorEffect_support, sensorCleanup_support]
      rw [ih _ _ (by rw [hs]; exact h), sensorEffect_dl _ (by rw [sensorCleanup_support]; exact h),
        sensorCleanup_dl]

theorem reactAux_timer (n : Nat) (last : Bool × Support × Permission) (s : SensorSys)
    (h : s.support ≠ Support.checking) (h2 : s.timerPending = false) :
    (reactAux n last s).timerPending = false := by
  induction n generalizing last s with
  | zero => exact h2
  | succ n ih =>
    unfold reactAux
    split
    · exact h2
    · have hs : (sensorEffect (sensorCleanup s)).support = s.support := by
        rw [sensorEffect_support, sensorCleanup_support]
      refine ih _ _ (by rw [hs]; exact h) ?_
      rw [sensorEffect_timer _ (by rw [sensorCleanup_support]; exact h), sensorCleanup_timer]

theorem reactAux_perm (n : Nat) (last : Bool × Support × Permission) (s : SensorSys)
    (h : s.support ≠ Support.supported) :
    (reactAux n last s).permission = s.permission := by
  induction n generalizing last s with
  | zero => rfl
  | succ n ih =>
    unfold reactAux
    split
    · rfl
    · have hs : (sensorEffect (sensorCleanup s)).support = s.support := by
        rw [sensorEffect_support, sensorCleanup_support]
      rw [ih _ _ (by rw [hs]; exact h),
        sensorEffect_perm _ (by rw [sensorCleanup_support]; exact h), sensorCleanup_perm]

theorem locked_commit (prev s : SensorSys) (h : SensorLocked s) :
    SensorLocked (sensorCommit prev s) := by
  obtain ⟨ha, hs, hd, ht⟩ := h
  unfold sensorCommit
  refine ⟨?_, ?_, ?_, ?_⟩
  · rw [reactAux_active]; exact ha
  · rw [reactAux_support]; exact hs
  · rw [reactAux_dl _ _ _ (by rw [hs]; exact fun hc => by cases hc)]; exact hd
  · exact reactAux_timer _ _ _ (by rw [hs]; exact fun hc => by cases hc) ht

theorem locked_step (s : SensorSys) (op : ActOp) (h : SensorLocked s) :
    SensorLocked (actStep s op) := by
  obtain ⟨ha, hs, hd, ht⟩ := h
  cases op with
  | detect e =>
    show SensorLocked (detectEvent e s)
    unfold detectEvent
    rw [if_pos hd]
    exact ⟨ha, hs, hd, ht⟩
  | timeout =>
    show SensorLocked (timerFire s)
    unfold timerFire
    rw [ht]
    simp only [Bool.false_eq_true, if_false]
    exact ⟨ha, hs, hd, ht⟩
  | perm g =>
    show SensorLocked (permResult g s)
    unfold permResult
    exact locked_commit _ _ ⟨ha, hs, hd, ht⟩
  | orient e =>
    show SensorLocked (orientEvent e s)
    unfold orientEvent
    split
    · exact locked_commit _ _ ⟨ha, hs, hd, ht⟩
    · exact ⟨ha, hs, hd, ht⟩

theorem locked_fold (ops : List ActOp) (s : SensorSys) (h : SensorLocked s) :
    SensorLocked (ops.foldl actStep s) := by
  induction ops generalizing s with
  | nil => exact h
  | cons op rest ih => exact ih _ (locked_step _ _ h)

/-! ## The claims -/

/-- Claim C1: for the built-in SOS pattern the durations sum to exactly
7600 ms; one visual scheduling pass produces exactly 18 light-transition
events, the event of step k at offset sosOffset k (the sum of the durations
of the steps before k) setting the light flag to the on value of step k,
followed by the loop restart at offset 7600 ms. -/
theorem C1_thm (k : Nat) (hk : k < 18) :
    sosTotal = 7600 ∧
    (visualPass sosPattern).1.length = 18 ∧
    (visualPass sosPattern).1.getD k (0, true) =
      (sosOffset k, (sosPattern.getD k ⟨true, 0⟩).«on») ∧
    (visualPass sosPattern).2 = 7600 := by
  revert k
  decide

/-- Witness for C1 at step 6 (the first dash of the O). -/
theorem C1_witness :
    sosTotal = 7600 ∧
    (visualPass sosPattern).1.length = 18 ∧
    (visualPass sosPattern).1.getD 6 (0, true) =
      (sosOffset 6, (sosPattern.getD 6 ⟨true, 0⟩).on) ∧
    (visualPass sosPattern).2 = 7600 :=
  C1_thm 6 (by decide)

/-- Claim C2 (code bug): exiting the spirit-level or compass feature while
capability detection is still in the Checking state cancels the pending
detection timer but does NOT remove the one-shot detection listener, so a
deviceorientation event arriving after the exit still fires that listener
and mutates sensorSupportState. Concretely: after enter followed directly by
exit, one detection listener is still registered while the feature is
inactive, the timer is cleared, and a subsequent orientation event flips
support to supported. -/
theorem C2_thm :
    (exitFeature (enterFeature (sensorInit true))).detectListeners = 1 ∧
    (exitFeature (enterFeature (sensorInit true))).timerPending = false ∧
    (exitFeature (enterFeature (sensorInit true))).active = false ∧
    (detectEvent ⟨some 1, none, none⟩
      (exitFeature (enterFeature (sensorInit true)))).support = Support.supported := by
  decide

/-- Claim C3, counterexample: the claim states that ringing transitions from
true to false only via the explicit stop or clear operations, but
handleSetAlarm also writes ringing false (line 557), so setting a new alarm
while ringing clears the ring without being a stop or a clear. -/
theorem C3_counterexample :
    ¬ (∀ (s : AlarmState) (op : AlarmOp),
        s.ringing = true → (alarmStep s op).ringing = false →
        op = AlarmOp.stopRinging ∨ op = AlarmOp.clearAlarm) := by
  intro h
  rcases h ⟨some (7, 30), true⟩ (AlarmOp.setAlarm 8 0) rfl rfl with h1 | h1 <;>
    exact absurd h1 (by decide)

/-- Claim C3 as amended: ringing transitions from false to true only on a
tick whose hour and minute equal the configured alarm time with second 0
(and only when an alarm is configured); it transitions from true to false
only via stop, clear, the back exit from the alarm feature, or the set-alarm
operation (which clears any stale ring, line 557). No other path changes
it. -/
theorem C3_thm (s : AlarmState) (op : AlarmOp) :
    ((alarmStep s op).ringing = true → s.ringing = false →
      ∃ t h m, op = AlarmOp.tick t ∧ s.alarmTime = some (h, m) ∧
        t.hour = h ∧ t.minute = m ∧ t.second = 0) ∧
    (s.ringing = true → (alarmStep s op).ringing = false →
      op = AlarmOp.stopRinging ∨ op = AlarmOp.clearAlarm ∨ op = AlarmOp.backFromAlarm ∨
      ∃ h m, op = AlarmOp.setAlarm h m) := by
  constructor
  · intro h1 h2
    cases op with
    | tick t =>
      cases hA : s.alarmTime with
      | none =>
        rw [show alarmStep s (AlarmOp.tick t) = s by unfold alarmStep; rw [hA]] at h1
        rw [h1] at h2
        cases h2
      | some hm =>
        obtain ⟨h, m⟩ := hm
        by_cases hC : s.ringing = false ∧ t.hour = h ∧ t.minute = m ∧ t.second = 0
        · exact ⟨t, h, m, rfl, rfl, hC.2.1, hC.2.2.1, hC.2.2.2⟩
        · rw [show alarmStep s (AlarmOp.tick t) = s by
            unfold alarmStep; rw [hA]; exact if_neg hC] at h1
          rw [h1] at h2
          cases h2
    | setAlarm h m => cases h1
    | clearAlarm => cases h1
    | stopRinging => cases h1
    | backFromAlarm =>
      rw [show alarmStep s AlarmOp.backFromAlarm = s by
        unfold alarmStep; rw [h2]; rfl] at h1
      rw [h1] at h2
      cases h2
  · intro h1 h2
    cases op with
    | tick t =>
      exfalso
      cases hA : s.alarmTime with
      | none =>
        rw [show alarmStep s (AlarmOp.tick t) = s by unfold alarmStep; rw [hA]] at h2
        rw [h1] at h2
        cases h2
      | some hm =>
        obtain ⟨h, m⟩ := hm
        by_cases hC : s.ringing = false ∧ t.hour = h ∧ t.minute = m ∧ t.second = 0
        · rw [h1] at hC
          cases hC.1
        · rw [show alarmStep s (AlarmOp.tick t) = s by
            unfold alarmStep; rw [hA]; exact if_neg hC] at h2
          rw [h1] at h2
          cases h2
    | setAlarm h m => exact Or.inr (Or.inr (Or.inr ⟨h, m, rfl⟩))
    | clearAlarm => exact Or.inr (Or.inl rfl)
    | stopRinging => exact Or.inl rfl
    | backFromAlarm => exact Or.inr (Or.inr (Or.inl rfl))

/-- Witness for C3: the stop operation on a ringing alarm is one of the
admitted ring-clearing operations. -/
theorem C3_witness :
    AlarmOp.stopRinging = AlarmOp.stopRinging ∨ AlarmOp.stopRinging = AlarmOp.clearAlarm ∨
    AlarmOp.stopRinging = AlarmOp.backFromAlarm ∨
    ∃ h m, AlarmOp.stopRinging = AlarmOp.setAlarm h m :=
  (C3_thm ⟨some (7, 30), true⟩ AlarmOp.stopRinging).2 rfl rfl

/-- Claim C4: in every reachable state of an active run, canceling a channel
leaves no scheduled callback of that run pending (so none can ever fire),
and the visual cancel additionally resets the light flag to its default
true. -/
theorem C4_thm (v : VState) (hv : VReach v) (a : AState) (ha : AReach a) :
    (vCancel v).chan.pending = [] ∧ (vCancel v).light = true ∧
    (aCancel a).chan.pending = [] := by
  refine ⟨?_, rfl, ?_⟩
  · exact chanClear_pending_nil _ (vReach_chanInv hv).1
  · exact chanClear_pending_nil _ (aReach_inv ha).1.1

/-- Witness for C4: cancel right after starting a run on each channel. -/
theorem C4_witness :
    (vCancel (vRegister vInit)).chan.pending = [] ∧
    (vCancel (vRegister vInit)).light = true ∧
    (aCancel (aRegister aInit)).chan.pending = [] :=
  C4_thm (vRegister vInit) (VReach.start VReach.init)
    (aRegister aInit) (AReach.start AReach.init)

/-- Claim C5: starting a new run on a channel first cancels the previous
run: afterwards every pending timeout of that channel belongs to the new run
(its id is in the new ref) and none belongs to the previous run (its id is
not among the ids the previous ref held), for the visual and the audio
channel alike. -/
theorem C5_thm (v : VState) (hv : VReach v) (a : AState) (ha : AReach a)
    (tv : Timeout VAction) (ta : Timeout AAction)
    (hmv : tv ∈ (vRegister v).chan.pending) (hma : ta ∈ (aRegister a).chan.pending) :
    (tv.id ∈ (vRegister v).chan.ref ∧ tv.id ∉ v.chan.ref) ∧
    (ta.id ∈ (aRegister a).chan.ref ∧ ta.id ∉ a.chan.ref) := by
  have hvi := vReach_chanInv hv
  have hai := (aReach_inv ha).1
  rw [vRegister_chan] at hmv
  rw [aRegister_chan] at hma
  have m1 := chanRegister_mem _ _ _ _ hvi hmv
  have m2 := chanRegister_mem _ _ _ _ hai hma
  refine ⟨⟨m1.1, fun hin => ?_⟩, ⟨m2.1, fun hin => ?_⟩⟩
  · have := hvi.2.2 _ hin
    have := m1.2.1
    omega
  · have := hai.2.2 _ hin
    have := m2.2.1
    omega

/-- Witness for C5: the first transition timeout of a fresh run on each
channel belongs to the new run and not to the (empty) previous one. -/
theorem C5_witness :
    ((⟨0, 0, VAction.setLight true⟩ : Timeout VAction).id ∈ (vRegister vInit).chan.ref ∧
      (⟨0, 0, VAction.setLight true⟩ : Timeout VAction).id ∉ vInit.chan.ref) ∧
    ((⟨0, 0, AAction.toneStart 200⟩ : Timeout AAction).id ∈ (aRegister aInit).chan.ref ∧
      (⟨0, 0, AAction.toneStart 200⟩ : Timeout AAction).id ∉ aInit.chan.ref) :=
  C5_thm vInit VReach.init aInit AReach.init
    ⟨0, 0, VAction.setLight true⟩ ⟨0, 0, AAction.toneStart 200⟩ (by decide) (by decide)

/-- Claim C6: one audio scheduling pass produces a tone-start event exactly
at the offsets of the on steps (9 of the 18 steps), each with the duration
of its step; every started tone has the fixed 660 Hz frequency and the
duration of some on step; canceling the audio channel leaves every started
tone untouched (it runs to its own completion) and only empties the pending
tone-start callbacks. -/
theorem C6_thm (s : AState) (h : AReach s) (tn : Tone) (htn : tn ∈ s.tones) :
    (audioPass sosPattern).1 = (List.range 18).filterMap (fun k =>
      if (sosPattern.getD k ⟨false, 0⟩).«on»
      then some (sosOffset k, (sosPattern.getD k ⟨false, 0⟩).duration) else none) ∧
    (audioPass sosPattern).1.length = 9 ∧
    tn.freq = 660 ∧ tn.durationMs ∈ onDurations ∧
    (aCancel s).tones = s.tones ∧
    (aCancel s).chan.pending = [] := by
  have hi := aReach_inv h
  exact ⟨by decide, by decide, (hi.2.2 tn htn).1, (hi.2.2 tn htn).2, rfl,
    chanClear_pending_nil _ hi.1.1⟩

/-- Witness for C6: start a run, fire the first tone-start timeout, then
cancel: the started tone survives the cancel while pending empties. -/
theorem C6_witness :
    (audioPass sosPattern).1 = (List.range 18).filterMap (fun k =>
      if (sosPattern.getD k ⟨false, 0⟩).«on»
      then some (sosOffset k, (sosPattern.getD k ⟨false, 0⟩).duration) else none) ∧
    (audioPass sosPattern).1.length = 9 ∧
    (⟨660, 0, 200⟩ : Tone).freq = 660 ∧ (⟨660, 0, 200⟩ : Tone).durationMs ∈ onDurations ∧
    (aCancel (aFire (aRegister aInit) ⟨0, 0, AAction.toneStart 200⟩)).tones =
      (aFire (aRegister aInit) ⟨0, 0, AAction.toneStart 200⟩).tones ∧
    (aCancel (aFire (aRegister aInit) ⟨0, 0, AAction.toneStart 200⟩)).chan.pending = [] :=
  C6_thm (aFire (aRegister aInit) ⟨0, 0, AAction.toneStart 200⟩)
    (AReach.fire (AReach.start AReach.init) (by decide)) ⟨660, 0, 200⟩ (by decide)

/-- Claim C7: handleSetPreset 1 yields countdown mode, 60 seconds, active,
not finished; before the 60th tick the finished flag is still false; after
60 consecutive ticks the state is 0 seconds, inactive, finished; and that
state is a fixed point of further ticks, so seconds never drop below 0 and
the finished transition fires exactly once per run. -/
theorem C7_thm (n k : Nat) (hk : k < 60) :
    handleSetPreset 1 =
      { mode := TimerMode.countdown, seconds := 60, active := true, finished := false } ∧
    (timerTick^[k] (handleSetPreset 1)).finished = false ∧
    timerTick^[60] (handleSetPreset 1) =
      { mode := TimerMode.countdown, seconds := 0, active := false, finished := true } ∧
    timerTick^[n] (timerTick^[60] (handleSetPreset 1)) =
      timerTick^[60] (handleSetPreset 1) := by
  have h60 : timerTick^[60] (handleSetPreset 1) =
      { mode := TimerMode.countdown, seconds := 0, active := false, finished := true } := by
    decide
  refine ⟨by decide, ?_, h60, ?_⟩
  · revert k
    decide
  · rw [h60]
    exact Function.iterate_fixed (by decide) n

/-- Witness for C7 at the 59th tick and 3 extra ticks after finishing. -/
theorem C7_witness :
    handleSetPreset 1 =
      { mode := TimerMode.countdown, seconds := 60, active := true, finished := false } ∧
    (timerTick^[59] (handleSetPreset 1)).finished = false ∧
    timerTick^[60] (handleSetPreset 1) =
      { mode := TimerMode.countdown, seconds := 0, active := false, finished := true } ∧
    timerTick^[3] (timerTick^[60] (handleSetPreset 1)) =
      timerTick^[60] (handleSetPreset 1) :=
  C7_thm 3 59 (by decide)

/-- Claim C8: during a fresh activation, a first orientation event arriving
while the detection timer is pending makes capability supported exactly when
the event carries a non-null field and unsupported otherwise, cancels the
timer and deregisters the one-shot listener; and if instead the 1000 ms
timer fires first, capability becomes unsupported and stays unsupported
under every further sequence of in-activation inputs. -/
theorem C8_thm (req : Bool) (e : RawEvent) (ops : List ActOp) :
    ((detectEvent e (enterFeature (sensorInit req))).support =
      if e.beta ≠ none ∨ e.gamma ≠ none ∨ e.alpha ≠ none
      then Support.supported else Support.unsupported) ∧
    (detectEvent e (enterFeature (sensorInit req))).timerPending = false ∧
    (detectEvent e (enterFeature (sensorInit req))).detectListeners = 0 ∧
    (timerFire (enterFeature (sensorInit req))).support = Support.unsupported ∧
    (ops.foldl actStep (timerFire (enterFeature (sensorInit req)))).support =
      Support.unsupported := by
  have hent : enterFeature (sensorInit req) =
      { active := true, support := Support.checking, permission := Permission.unknown,
        detectListeners := 1, orientListener := false, timerPending := true,
        orientation := (0, 0, 0), requiresPermission := req } := by
    cases req <;> rfl
  rw [hent]
  have hne : (if e.beta ≠ none ∨ e.gamma ≠ none ∨ e.alpha ≠ none
      then Support.supported else Support.unsupported) ≠ Support.checking := by
    by_cases hc : e.beta ≠ none ∨ e.gamma ≠ none ∨ e.alpha ≠ none
    · rw [if_pos hc]; exact fun h => by cases h
    · rw [if_neg hc]; exact fun h => by cases h
  refine ⟨?_, ?_, ?_, ?_, ?_⟩
  · unfold detectEvent
    rw [if_neg (show ¬((1 : Nat) = 0) by decide)]
    unfold sensorCommit
    rw [reactAux_support]
  · unfold detectEvent
    rw [if_neg (show ¬((1 : Nat) = 0) by decide)]
    unfold sensorCommit
    exact reactAux_timer _ _ _ hne rfl
  · unfold detectEvent
    rw [if_neg (show ¬((1 : Nat) = 0) by decide)]
    unfold sensorCommit
    rw [reactAux_dl _ _ _ hne]
    rfl
  · unfold timerFire
    rw [if_pos rfl]
    unfold sensorCommit
    rw [reactAux_support]
  · refine (locked_fold ops _ ?_).2.1
    unfold timerFire
    rw [if_pos rfl]
    refine locked_commit _ _ ⟨rfl, rfl, rfl, rfl⟩

/-- Witness for C8: a concrete non-null event and the timeout path with one
further input. -/
theorem C8_witness :
    (timerFire (enterFeature (sensorInit true))).support = Support.unsupported ∧
    ([ActOp.perm true].foldl actStep
      (timerFire (enterFeature (sensorInit true)))).support = Support.unsupported :=
  ⟨(C8_thm true ⟨some 3, none, none⟩ [ActOp.perm true]).2.2.2.1,
   (C8_thm true ⟨some 3, none, none⟩ [ActOp.perm true]).2.2.2.2⟩

/-- Claim C9: whatever the capability and permission outcome of the previous
activation, exiting a sensor-consuming feature and re-entering it restarts
the machine from capability checking and permission unknown: neither value
leaks across activations. -/
theorem C9_thm (s : SensorSys) :
    (enterFeature (exitFeature s)).support = Support.checking ∧
    (enterFeature (exitFeature s)).permission = Permission.unknown := by
  have e1 : (exitFeature s).support = Support.checking := by
    unfold exitFeature sensorCommit
    rw [reactAux_support]
  have e2 : (exitFeature s).permission = Permission.unknown := by
    unfold exitFeature sensorCommit
    rw [reactAux_perm _ _ _ (by exact fun h => by cases h)]
  constructor
  · unfold enterFeature sensorCommit
    rw [reactAux_support]
    exact e1
  · unfold enterFeature sensorCommit
    rw [reactAux_perm _ _ _ ?_]
    · exact e2
    · show (exitFeature s).support ≠ Support.supported
      rw [e1]
      exact fun h => by cases h

/-- Witness for C9 from a fully granted previous activation. -/
theorem C9_witness :
    (enterFeature (exitFeature
      { active := true, support := Support.supported, permission := Permission.granted,
        detectListeners := 0, orientListener := true, timerPending := false,
        orientation := (10, 20, 30), requiresPermission := true })).support =
      Support.checking ∧
    (enterFeature (exitFeature
      { active := true, support := Support.supported, permission := Permission.granted,
        detectListeners := 0, orientListener := true, timerPending := false,
        orientation := (10, 20, 30), requiresPermission := true })).permission =
      Permission.unknown :=
  C9_thm _

/-- Claim C10: the timer branch of the back exit sets active and finished to
false and leaves seconds and mode untouched, so re-entering the timer shows
the same count and mode; the explicit reset is what zeroes seconds. -/
theorem C10_thm (s : TimerState) :
    (handleBackTimer s).seconds = s.seconds ∧
    (handleBackTimer s).mode = s.mode ∧
    (handleBackTimer s).active = false ∧
    (handleBackTimer s).finished = false ∧
    (handleReset s).seconds = 0 :=
  ⟨rfl, rfl, rfl, rfl, rfl⟩

/-- Witness for C10 on a mid-run countdown state. -/
theorem C10_witness :
    (handleBackTimer
      { mode := TimerMode.countdown, seconds := 42, active := true, finished := false }).seconds =
      ({ mode := TimerMode.countdown, seconds := 42, active := true,
         finished := false } : TimerState).seconds ∧
    (handleBackTimer
      { mode := TimerMode.countdown, seconds := 42, active := true, finished := false }).mode =
      ({ mode := TimerMode.countdown, seconds := 42, active := true,
         finished := false } : TimerState).mode ∧
    (handleBackTimer
      { mode := TimerMode.countdown, seconds := 42, active := true, finished := false }).active =
      false ∧
    (handleBackTimer
      { mode := TimerMode.countdown, seconds := 42, active := true, finished := false }).finished =
      false ∧
    (handleReset
      { mode := TimerMode.countdown, seconds := 42, active := true, finished := false }).seconds =
      0 :=
  C10_thm _
